import Mathlib

/-!
Shallow embedding of the TypeScript embedding/search pipeline
(`semanticSearchService.ts`, `embeddingService.ts`, `redisVectorStore.ts`,
`process-optimized.ts`) and proofs about it.

Scores are modelled as rationals (`ℚ`); the vector store's reply to a
similarity query is modelled as the list of `(document, distance)` pairs it
returns; the embedding API is modelled as an oracle mapping the index of the
API call to its outcome (`Except` an error message).
-/

namespace TsEmbeddings

/-- The relevance tier of `SearchResult` (`'high' | 'medium' | 'low'`). -/
inductive Relevance
  | high
  | medium
  | low
deriving DecidableEq, Repr

/-- `calculateRelevance` (semanticSearchService.ts lines 178-182):
`if (score <= 0.3) return 'high'; if (score <= 0.6) return 'medium'; return 'low';`. -/
def calculateRelevance (score : ℚ) : Relevance :=
  if score ≤ 3/10 then .high
  else if score ≤ 6/10 then .medium
  else .low

/-- LangChain `Document`: page content plus metadata, the latter modelled as an
association list of string keys and values. -/
structure Document where
  pageContent : String
  metadata : List (String × String)
deriving DecidableEq, Repr

/-- `SearchResult` (semanticSearchService.ts lines 6-10). -/
structure SearchResult where
  document : Document
  score : ℚ
  relevance : Relevance
deriving DecidableEq, Repr

/-- `SearchOptions` (semanticSearchService.ts lines 12-17); every field is
optional in TypeScript, defaults are applied by destructuring inside `search`. -/
structure SearchOptions where
  maxResults : Option Nat
  scoreThreshold : Option ℚ
  includeScore : Option Bool
  filterByMetadata : Option (List (String × String))

/-- `filterByMetadata` (semanticSearchService.ts lines 184-195): keep the
results whose metadata maps every key of the filter to the filter's value. -/
def filterByMetadata (results : List SearchResult)
    (filter : List (String × String)) : List SearchResult :=
  results.filter fun r =>
    filter.all fun kv => decide (r.document.metadata.lookup kv.1 = some kv.2)

/-- The pure core of `search` (semanticSearchService.ts lines 38-115).
`candidates` is what the vector store returns for the query
(`similaritySearchWithScore`): the documents with their distance scores, best
first.  With `includeScore = false` the service asks for plain documents and
pairs each with score `0` (line 68).  Results are mapped to `SearchResult`s
with `calculateRelevance`, filtered by `score <= scoreThreshold` (line 97,
default threshold `0.8`), then optionally filtered by metadata. -/
def search (candidates : List (Document × ℚ)) (options : SearchOptions) :
    List SearchResult :=
  let scoreThreshold := options.scoreThreshold.getD (8/10)
  let includeScore := options.includeScore.getD true
  let results : List (Document × ℚ) :=
    if includeScore then candidates
    else candidates.map fun p => (p.1, 0)
  let searchResults : List SearchResult :=
    results.map fun p => ⟨p.1, p.2, calculateRelevance p.2⟩
  let filteredResults := searchResults.filter fun r =>
    decide (r.score ≤ scoreThreshold)
  match options.filterByMetadata with
  | some f => filterByMetadata filteredResults f
  | none => filteredResults

/-- C1: the relevance tier is a pure step function of the distance score:
`d ≤ 0.3 → high`, `0.3 < d ≤ 0.6 → medium`, `d > 0.6 → low`, the boundary
values `0.3` and `0.6` going to the better tier. -/
theorem calculateRelevance_tiers (d : ℚ) :
    (d ≤ 3/10 → calculateRelevance d = .high) ∧
    (3/10 < d → d ≤ 6/10 → calculateRelevance d = .medium) ∧
    (6/10 < d → calculateRelevance d = .low) := by
  refine ⟨fun h => ?_, fun h1 h2 => ?_, fun h => ?_⟩
  · simp [calculateRelevance, h]
  · simp [calculateRelevance, not_le.mpr h1, h2]
  · have h3 : (3/10 : ℚ) < d := lt_trans (by norm_num) h
    simp [calculateRelevance, not_le.mpr h, not_le.mpr h3]

/-- C1 witness: the tiers at the spec's sample points
`0, 0.3, 0.30001, 0.6, 0.60001`. -/
theorem calculateRelevance_tiers_witness :
    calculateRelevance 0 = .high ∧
    calculateRelevance (3/10) = .high ∧
    calculateRelevance (30001/100000) = .medium ∧
    calculateRelevance (6/10) = .medium ∧
    calculateRelevance (60001/100000) = .low :=
  ⟨(calculateRelevance_tiers 0).1 (by norm_num),
   (calculateRelevance_tiers (3/10)).1 (by norm_num),
   (calculateRelevance_tiers (30001/100000)).2.1 (by norm_num) (by norm_num),
   (calculateRelevance_tiers (6/10)).2.1 (by norm_num) (by norm_num),
   (calculateRelevance_tiers (60001/100000)).2.2 (by norm_num)⟩

/-- C2: `search` removes exactly the candidates whose raw distance exceeds the
threshold (default `0.8` when omitted), and on the spec's end-to-end scenario
(`scoreThreshold = 0.5`, distances `[0.1, 0.4, 0.55, 0.9]`) returns exactly the
first two candidates, tagged `high` and `medium`. -/
theorem search_threshold_filter (cands : List (Document × ℚ)) (t : ℚ) :
    (search cands ⟨none, some t, some true, none⟩
      = (cands.map fun p => (⟨p.1, p.2, calculateRelevance p.2⟩ : SearchResult)).filter
          fun r => decide (r.score ≤ t)) ∧
    (search cands ⟨none, none, some true, none⟩
      = (cands.map fun p => (⟨p.1, p.2, calculateRelevance p.2⟩ : SearchResult)).filter
          fun r => decide (r.score ≤ 8/10)) ∧
    (∀ d1 d2 d3 d4 : Document,
      search [(d1, 1/10), (d2, 2/5), (d3, 11/20), (d4, 9/10)]
          ⟨none, some (1/2), some true, none⟩
        = [⟨d1, 1/10, .high⟩, ⟨d2, 2/5, .medium⟩]) := by
  refine ⟨rfl, rfl, fun d1 d2 d3 d4 => ?_⟩
  norm_num [search, calculateRelevance, List.filter]

/-- C8: score-threshold filtering is monotonic in the threshold: any result
returned at threshold `t1` is also returned at any threshold `t2 ≥ t1`, all
other options unchanged. -/
theorem search_threshold_monotone (cands : List (Document × ℚ))
    (mr : Option Nat) (inc : Option Bool) (mf : Option (List (String × String)))
    (t1 t2 : ℚ) (ht : t1 ≤ t2) (r : SearchResult)
    (hr : r ∈ search cands ⟨mr, some t1, inc, mf⟩) :
    r ∈ search cands ⟨mr, some t2, inc, mf⟩ := by
  cases mf with
  | none =>
    simp only [search, Option.getD_some, filterByMetadata, List.mem_filter,
      decide_eq_true_eq] at hr ⊢
    exact ⟨hr.1, le_trans hr.2 ht⟩
  | some f =>
    simp only [search, Option.getD_some, filterByMetadata, List.mem_filter,
      decide_eq_true_eq] at hr ⊢
    exact ⟨⟨hr.1.1, le_trans hr.1.2 ht⟩, hr.2⟩

/-- C8 witness: a result passing at threshold `0.5` also passes at `0.75`. -/
theorem search_threshold_monotone_witness :
    (⟨⟨"a", []⟩, 1/10, .high⟩ : SearchResult) ∈
      search [(⟨"a", []⟩, 1/10)] ⟨none, some (3/4), some true, none⟩ :=
  search_threshold_monotone [(⟨"a", []⟩, 1/10)] none (some true) none
    (1/2) (3/4) (by norm_num) ⟨⟨"a", []⟩, 1/10, .high⟩ (by
      have h : search [(⟨"a", []⟩, 1/10)] ⟨none, some (1/2), some true, none⟩
          = [⟨⟨"a", []⟩, 1/10, .high⟩] := by
        norm_num [search, calculateRelevance, List.filter]
      rw [h]
      exact List.mem_singleton.mpr rfl)

/-- C10: with `includeScore = false` and any threshold `t ≥ 0`, every returned
result carries score `0` and relevance `high`, and the threshold filter removes
nothing: without a metadata filter the result count equals the store's
candidate count. -/
theorem search_without_scores (cands : List (Document × ℚ))
    (mr : Option Nat) (mf : Option (List (String × String))) (t : ℚ)
    (ht : 0 ≤ t) :
    (∀ r ∈ search cands ⟨mr, some t, some false, mf⟩,
        r.score = 0 ∧ r.relevance = .high) ∧
    (search cands ⟨mr, some t, some false, none⟩).length = cands.length := by
  have hrel : calculateRelevance 0 = .high := by norm_num [calculateRelevance]
  constructor
  · intro r hr
    have hmem : r ∈ ((cands.map fun p => (p.1, (0:ℚ))).map
        fun p => (⟨p.1, p.2, calculateRelevance p.2⟩ : SearchResult)) := by
      cases mf with
      | none =>
        simp only [search, Option.getD_some, List.mem_filter] at hr
        exact hr.1
      | some f =>
        simp only [search, Option.getD_some, filterByMetadata,
          List.mem_filter] at hr
        exact hr.1.1
    simp only [List.map_map, List.mem_map, Function.comp] at hmem
    obtain ⟨p, _, hp⟩ := hmem
    rw [← hp]
    exact ⟨rfl, hrel⟩
  · have hall : ∀ r ∈ ((cands.map fun p => (p.1, (0:ℚ))).map
        fun p => (⟨p.1, p.2, calculateRelevance p.2⟩ : SearchResult)),
        decide (r.score ≤ t) = true := by
      intro r hr
      simp only [List.map_map, List.mem_map, Function.comp] at hr
      obtain ⟨p, _, hp⟩ := hr
      rw [← hp]
      exact decide_eq_true ht
    show ((((cands.map fun p => (p.1, (0:ℚ))).map
        fun p => (⟨p.1, p.2, calculateRelevance p.2⟩ : SearchResult)).filter
        fun r => decide (r.score ≤ t)).length) = cands.length
    rw [List.filter_eq_self.mpr hall, List.length_map, List.length_map]

/-- C10 witness: a concrete no-score query with threshold `0.8`. -/
theorem search_without_scores_witness :
    (∀ r ∈ search [(⟨"a", []⟩, 1/4)] ⟨none, some (8/10), some false, none⟩,
        r.score = 0 ∧ r.relevance = .high) ∧
    (search [(⟨"a", []⟩, 1/4)] ⟨none, some (8/10), some false, none⟩).length
      = 1 :=
  search_without_scores [(⟨"a", []⟩, 1/4)] none none (8/10) (by norm_num)

/-- One step of the batch loops
(`for (let i = 0; i < xs.length; i += batchSize) { xs.slice(i, i + batchSize) }`,
embeddingService.ts lines 441-443 and 539-541, redisVectorStore.ts lines
90-92), with the list length as fuel: each iteration takes the next
`batchSize` elements.  For `batchSize ≥ 1` the fuel never runs out. -/
def createBatchesGo (batchSize : Nat) : Nat → List α → List (List α)
  | 0, _ => []
  | _, [] => []
  | fuel+1, a :: l => (a :: l).take batchSize ::
      createBatchesGo batchSize fuel ((a :: l).drop batchSize)

/-- The batch partition produced by the batch loops. -/
def createBatches (batchSize : Nat) (l : List α) : List (List α) :=
  createBatchesGo batchSize l.length l

theorem createBatchesGo_spec {batchSize : Nat} (hB : 1 ≤ batchSize) :
    ∀ (fuel : Nat) (l : List α), l.length ≤ fuel →
      (createBatchesGo batchSize fuel l).flatten = l ∧
      (createBatchesGo batchSize fuel l).length
        = (l.length + batchSize - 1) / batchSize := by
  intro fuel
  induction fuel with
  | zero =>
    intro l hl
    rw [Nat.le_zero, List.length_eq_zero] at hl
    subst hl
    refine ⟨rfl, ?_⟩
    simp [createBatchesGo,
      Nat.div_eq_of_lt (show batchSize - 1 < batchSize by omega)]
  | succ n ih =>
    intro l hl
    match l with
    | [] =>
      constructor
      · simp [createBatchesGo]
      · simp [createBatchesGo,
          Nat.div_eq_of_lt (show batchSize - 1 < batchSize by omega)]
    | a :: l =>
      have hlen : ((a :: l).drop batchSize).length ≤ n := by
        rw [List.length_drop]
        have := List.length_pos.mpr (List.cons_ne_nil a l)
        omega
      obtain ⟨hj, hc⟩ := ih ((a :: l).drop batchSize) hlen
      constructor
      · simp only [createBatchesGo, List.flatten_cons, hj,
          List.take_append_drop]
      · simp only [createBatchesGo, List.length_cons, hc, List.length_drop]
        rcases Nat.le_total batchSize (l.length + 1) with hbl | hbl
        · have h1 : l.length + 1 - batchSize + batchSize - 1
              = l.length := by omega
          have h2 : l.length + 1 + batchSize - 1
              = l.length + batchSize := by omega
          rw [h1, h2, Nat.add_div_right _ hB]
        · have h1 : l.length + 1 - batchSize = 0 := by omega
          have h2 : l.length + 1 + batchSize - 1
              = l.length + batchSize := by omega
          rw [h1, h2, Nat.add_div_right _ hB, Nat.zero_add,
            Nat.div_eq_of_lt (show batchSize - 1 < batchSize by omega),
            Nat.div_eq_of_lt (show l.length < batchSize by omega)]

/-- The concatenation of the produced batches is the original list: the
batches are contiguous, cover everything, in order, without overlap. -/
theorem createBatches_flatten {batchSize : Nat} (hB : 1 ≤ batchSize)
    (l : List α) : (createBatches batchSize l).flatten = l :=
  (createBatchesGo_spec hB l.length l le_rfl).1

/-- The number of produced batches is `⌈length / batchSize⌉`. -/
theorem createBatches_count {batchSize : Nat} (hB : 1 ≤ batchSize)
    (l : List α) : (createBatches batchSize l).length
      = (l.length + batchSize - 1) / batchSize :=
  (createBatchesGo_spec hB l.length l le_rfl).2

/-- C3: for every batch size `B ≥ 1` and input list, the batch loop partitions
the input into exactly `⌈N/B⌉` contiguous batches that cover all items with no
overlap and no gaps, in original order (their concatenation is the input). -/
theorem batch_partition {B : Nat} (hB : 1 ≤ B) (l : List α) :
    (createBatches B l).length = (l.length + B - 1) / B ∧
    (createBatches B l).flatten = l :=
  ⟨createBatches_count hB l, createBatches_flatten hB l⟩

/-- C3 witness: batch size 2 over five elements gives three batches covering
the input. -/
theorem batch_partition_witness :
    (createBatches 2 [10, 20, 30, 40, 50]).length = 3 ∧
    (createBatches 2 [10, 20, 30, 40, 50]).flatten = [10, 20, 30, 40, 50] :=
  ⟨((batch_partition (by decide) [10, 20, 30, 40, 50]).1).trans (by decide),
   (batch_partition (by decide) [10, 20, 30, 40, 50]).2⟩

/-- `calculateDelay` (embeddingService.ts lines 608-611):
`Math.min(batchNumber * 1000, 10000)`. -/
def calculateDelay (batchNumber : Nat) : Nat :=
  min (batchNumber * 1000) 10000

/-- The pacing delay actually applied before submitting batch `batchNumber`
(1-based): the loops call `calculateDelay` only when `batchNumber > 1`
(embeddingService.ts lines 449-453 and 547-551). -/
def appliedDelay (batchNumber : Nat) : Nat :=
  if 1 < batchNumber then calculateDelay batchNumber else 0

/-- C4: the pacing delay before batch `i` is `min(i * 1000ms, 10000ms)` from
the second batch onward, zero before batch 1, monotonically non-decreasing
across the first 10 batches, and constant `10000ms` from batch 10 onward. -/
theorem pacing_delay_spec :
    (∀ i, 2 ≤ i → appliedDelay i = min (i * 1000) 10000) ∧
    appliedDelay 1 = 0 ∧
    (∀ i j, 1 ≤ i → i ≤ j → j ≤ 10 → appliedDelay i ≤ appliedDelay j) ∧
    (∀ i, 10 ≤ i → appliedDelay i = 10000) := by
  refine ⟨fun i hi => ?_, rfl, fun i j _ hij _ => ?_, fun i hi => ?_⟩
  · rw [appliedDelay, if_pos (by omega), calculateDelay]
  · rcases Nat.lt_or_ge 1 i with h1 | h1
    · rw [appliedDelay, if_pos h1, appliedDelay, if_pos (by omega),
        calculateDelay, calculateDelay]
      exact min_le_min (Nat.mul_le_mul_right 1000 hij) le_rfl
    · rw [appliedDelay, if_neg (by omega)]
      exact Nat.zero_le _
  · rw [appliedDelay, if_pos (by omega), calculateDelay]
    exact min_eq_right (by omega)

/-- C4 witness: the delays before batches 1, 2, 5, 10 and 42. -/
theorem pacing_delay_spec_witness :
    appliedDelay 1 = 0 ∧ appliedDelay 2 = 2000 ∧
    appliedDelay 5 = min 5000 10000 ∧
    appliedDelay 2 ≤ appliedDelay 9 ∧ appliedDelay 42 = 10000 :=
  ⟨pacing_delay_spec.2.1,
   (pacing_delay_spec.1 2 (by decide)).trans (by decide),
   (pacing_delay_spec.1 5 (by decide)).trans (by decide),
   pacing_delay_spec.2.2.1 2 9 (by decide) (by decide) (by decide),
   pacing_delay_spec.2.2.2 42 (by decide)⟩

/-- An observable event of the batch pipeline: a sleep of some milliseconds, or
the embedding API call number `idx` for the current batch. -/
inductive REvent
  | sleepMs (ms : Nat)
  | apiCall (idx : Nat)
deriving DecidableEq, Repr

/-- `isRateLimitError` (embeddingService.ts lines 613-618): the lowercased
error message contains `rate limit`, `too many requests` or `429`.
Lowercasing and substring containment are modelled on the character list. -/
def isRateLimitError (msg : String) : Bool :=
  let m := msg.data.map Char.toLower
  decide ("rate limit".data <:+: m) ||
  decide ("too many requests".data <:+: m) ||
  decide ("429".data <:+: m)

/-- The retry loop of `processBatchWithRetry` (embeddingService.ts lines
586-606) over the remaining 1-based attempt numbers.  `call (offset + a)` is
the outcome of the embedding API call made at attempt `a` (the `offset` keeps
API-call numbering distinct between invocations for the same batch).  On a
failed attempt that is not the last one the loop sleeps
`Math.pow(2, attempt) * 1000` ms; after the last failed attempt the last error
is thrown. -/
def retryGo (call : Nat → Except String α) (offset : Nat) :
    List Nat → String → List REvent × Except String α
  | [], last => ([], .error last)
  | a :: rest, _ =>
    match call (offset + a) with
    | .ok v => ([.apiCall (offset + a)], .ok v)
    | .error e =>
      match rest with
      | [] => ([.apiCall (offset + a)], .error e)
      | b :: rest2 =>
        let p := retryGo call offset (b :: rest2) e
        (.apiCall (offset + a) :: .sleepMs (2 ^ a * 1000) :: p.1, p.2)

/-- `processBatchWithRetry(batch, batchNumber, maxRetries = 3)`: run the
attempts `1, …, maxRetries`.  The returned pair is the event trace and the
outcome (`Except` the propagated last error). -/
def processBatchWithRetry (call : Nat → Except String α)
    (offset maxRetries : Nat) : List REvent × Except String α :=
  retryGo call offset (List.range' 1 maxRetries) "unknown error"

/-- The per-batch error handling of `createEmbeddingsInBatches`
(embeddingService.ts lines 545-580, identical in `embedAndSaveInBatches`
lines 447-518): run `processBatchWithRetry`; on failure, if the error is a
rate-limit error, sleep 60 s and run `processBatchWithRetry` once more for the
same batch (API calls numbered from 4), whose failure is propagated; a
non-rate-limit failure is propagated at once. -/
def processBatchTop (call : Nat → Except String α) :
    List REvent × Except String α :=
  let p1 := processBatchWithRetry call 0 3
  match p1.2 with
  | .ok v => (p1.1, .ok v)
  | .error e =>
    if isRateLimitError e then
      let p2 := processBatchWithRetry call 3 3
      (p1.1 ++ REvent.sleepMs 60000 :: p2.1, p2.2)
    else (p1.1, .error e)

theorem retryGo_all_fail (call : Nat → Except String α) (off : Nat)
    (m1 m2 m3 : String) (h1 : call (off + 1) = .error m1)
    (h2 : call (off + 2) = .error m2) (h3 : call (off + 3) = .error m3) :
    processBatchWithRetry call off 3
      = ([.apiCall (off + 1), .sleepMs 2000, .apiCall (off + 2),
          .sleepMs 4000, .apiCall (off + 3)], .error m3) := by
  have hr : List.range' 1 3 = [1, 2, 3] := rfl
  rw [processBatchWithRetry, hr]
  simp only [retryGo, h1, h2, h3]
  norm_num

/-- C5 counterexample: when all three attempts of a batch fail, the trace of
`processBatchWithRetry` holds exactly the backoff sleeps `2000` ms and `4000`
ms; no `8000` ms backoff ever occurs (the loop sleeps only while
`attempt < maxRetries`), refuting the claimed `attempt 3 → 8s` delay. -/
theorem retry_backoff_counterexample :
    (processBatchWithRetry (fun _ => (Except.error "boom" : Except String Nat))
        0 3).1
      = [.apiCall 1, .sleepMs 2000, .apiCall 2, .sleepMs 4000, .apiCall 3] ∧
    REvent.sleepMs 8000 ∉
      (processBatchWithRetry (fun _ => (Except.error "boom" : Except String Nat))
        0 3).1 := by
  constructor
  · decide
  · decide

/-- C5 (amended): a failing batch is retried up to 3 attempts total; the
backoff sleep after failed attempt `a` is `2 ^ a * 1000` ms for `a = 1, 2`
(2 s before the second attempt, 4 s before the third); no sleep follows the
final attempt, and exhausting the retries propagates the last error. -/
theorem retry_backoff (call : Nat → Except String α) (m1 m2 m3 : String)
    (h1 : call 1 = .error m1) (h2 : call 2 = .error m2)
    (h3 : call 3 = .error m3) :
    processBatchWithRetry call 0 3
      = ([.apiCall 1, .sleepMs 2000, .apiCall 2, .sleepMs 4000, .apiCall 3],
         .error m3) :=
  retryGo_all_fail call 0 m1 m2 m3 h1 h2 h3

/-- C5 witness: the trace and outcome at a concrete always-failing call. -/
theorem retry_backoff_witness :
    processBatchWithRetry (fun _ => (Except.error "fail" : Except String Nat))
        0 3
      = ([.apiCall 1, .sleepMs 2000, .apiCall 2, .sleepMs 4000, .apiCall 3],
         .error "fail") :=
  retry_backoff (fun _ => .error "fail") "fail" "fail" "fail" rfl rfl rfl

/-- C6: when the retries of a batch are exhausted with a rate-limit-classified
error (message contains `429` or rate-limit wording), the pipeline sleeps
60 s, then runs exactly one more `processBatchWithRetry` for the same batch
outside the normal retry budget, and a failure of that extra retry is
propagated (aborting the run). -/
theorem rate_limit_handling (call : Nat → Except String α) (m1 m2 m3 : String)
    (h1 : call 1 = .error m1) (h2 : call 2 = .error m2)
    (h3 : call 3 = .error m3) (hrl : isRateLimitError m3 = true) :
    processBatchTop call
      = ((processBatchWithRetry call 0 3).1 ++ REvent.sleepMs 60000 ::
          (processBatchWithRetry call 3 3).1,
         (processBatchWithRetry call 3 3).2) ∧
    (∀ e2, (processBatchWithRetry call 3 3).2 = .error e2 →
      (processBatchTop call).2 = .error e2) := by
  have hp1 := retryGo_all_fail call 0 m1 m2 m3 h1 h2 h3
  constructor
  · simp only [processBatchTop, hp1, hrl, if_true]
  · intro e2 he2
    simp only [processBatchTop, hp1, hrl, if_true, he2]

/-- C6 witness: a batch failing three times with `429` sleeps 60 s, is retried
once more, and the run aborts with the second failure's error. -/
theorem rate_limit_handling_witness :
    (processBatchTop (fun _ => (Except.error "429" : Except String Nat))).2
      = Except.error "429" :=
  (rate_limit_handling (fun _ => (Except.error "429" : Except String Nat))
    "429" "429" "429" rfl rfl rfl (by decide)).2 "429" rfl

/-- The skip decision of `processOptimized` (process-optimized.ts lines
67-123): with `skipExisting` set and a healthy Redis connection, read
`existingDocs = stats?.numDocs || 0` from the store's index info and skip the
whole embedding stage when `existingDocs > 0`. -/
def skipDecision (skipExisting redisHealth : Bool) (stats : Option Nat) :
    Bool :=
  skipExisting && redisHealth && decide (0 < stats.getD 0)

/-- The number of embedding-service API calls a `processOptimized` run makes,
on the path where every call succeeds: the skip path makes none; otherwise the
run makes one `createEmbedding` call (`testConnection`, process-optimized.ts
line 136) plus one `createEmbeddings` call per batch of
`embedAndSaveInBatches`. -/
def embeddingCallsOnRun (skipExisting redisHealth : Bool) (stats : Option Nat)
    (docs : List Document) (batchSize : Nat) : Nat :=
  if skipDecision skipExisting redisHealth stats then 0
  else 1 + (createBatches batchSize docs).length

/-- C7 counterexample: with `skipExisting` on, a reachable store reporting 0
documents, and an empty expected document set — so
`storedCount = 0 ≥ 0 = expectedCount` — the run does not skip and still
performs an embedding call (the OpenAI connection test): the code's skip
condition is `existingDocs > 0`, not `storedCount ≥ expectedCount`. -/
theorem skip_logic_counterexample :
    ([] : List Document).length ≤ 0 ∧
    skipDecision true true (some 0) = false ∧
    embeddingCallsOnRun true true (some 0) [] 25 = 1 :=
  ⟨le_rfl, rfl, rfl⟩

/-- C7 (amended): with `skipExisting` enabled and a reachable store whose
reported count satisfies `storedCount ≥ expectedCount` and `storedCount ≥ 1`,
the run skips the embedding stage entirely and performs zero embedding calls;
the skip decision uses the store's document-count query (skip iff the reported
count is positive). -/
theorem skip_logic (stats : Option Nat) (c : Nat) (docs : List Document)
    (B : Nat) (hs : stats = some c) (hge : docs.length ≤ c) (hpos : 1 ≤ c) :
    skipDecision true true stats = true ∧
    embeddingCallsOnRun true true stats docs B = 0 := by
  subst hs
  have hd : skipDecision true true (some c) = true := by
    simp only [skipDecision, Option.getD_some, Bool.true_and]
    exact decide_eq_true hpos
  exact ⟨hd, by simp [embeddingCallsOnRun, hd]⟩

/-- C7 witness: a store reporting 5 documents against 2 expected ones. -/
theorem skip_logic_witness :
    skipDecision true true (some 5) = true ∧
    embeddingCallsOnRun true true (some 5) [⟨"a", []⟩, ⟨"b", []⟩] 25 = 0 :=
  skip_logic (some 5) 5 [⟨"a", []⟩, ⟨"b", []⟩] 25 rfl (by decide) (by decide)

/-- The result of a completed `storeDocuments` run: how many documents were
handed to the store, and whether the final verification logged the
count-mismatch warning. -/
structure StoreReport where
  totalStored : Nat
  countWarning : Bool
deriving DecidableEq, Repr

/-- The sub-batch insertion loop of `storeDocuments` (redisVectorStore.ts
lines 90-128): for each sub-batch call `addDocuments` (modelled by the
`insert` oracle, indexed by the 1-based batch number) and accumulate
`totalStored`; an insertion error is rethrown. -/
def storeBatchesGo (insert : Nat → Except String Unit) :
    List (List Document) → Nat → Nat → Except String Nat
  | [], _, total => .ok total
  | b :: rest, idx, total =>
    match insert idx with
    | .ok _ => storeBatchesGo insert rest (idx + 1) (total + b.length)
    | .error e => .error e

/-- `storeDocuments` (redisVectorStore.ts lines 56-152): split the documents
into sub-batches of 50, insert each, then query the store's document count
(`finalCount`, `none` when the index info is unavailable) and compare it with
`totalStored` (lines 140-145): a lower reported count only sets a warning —
the function still returns successfully. -/
def storeDocuments (docs : List Document) (insert : Nat → Except String Unit)
    (finalCount : Option Nat) : Except String StoreReport :=
  match storeBatchesGo insert (createBatches 50 docs) 1 0 with
  | .error e => .error e
  | .ok total =>
    .ok ⟨total, match finalCount with
      | some n => decide (n < total)
      | none => false⟩

theorem storeBatchesGo_all_ok (insert : Nat → Except String Unit)
    (h : ∀ i, insert i = .ok ()) :
    ∀ (bs : List (List Document)) (idx total : Nat),
      storeBatchesGo insert bs idx total
        = .ok (total + (bs.map List.length).sum) := by
  intro bs
  induction bs with
  | nil => intro idx total; simp [storeBatchesGo]
  | cons b rest ih =>
    intro idx total
    simp [storeBatchesGo, h idx, ih, Nat.add_assoc]

/-- C9: when every bulk insert succeeds but the store reports a final count
lower than the expected cumulative count, `storeDocuments` completes normally:
it returns success with the warning flag set, never an error, on a count
discrepancy. -/
theorem store_count_discrepancy_advisory (docs : List Document)
    (insert : Nat → Except String Unit) (n : Nat)
    (hok : ∀ i, insert i = .ok ()) (hlt : n < docs.length) :
    storeDocuments docs insert (some n) = .ok ⟨docs.length, true⟩ := by
  have hsum : ((createBatches 50 docs).map List.length).sum = docs.length := by
    conv_rhs => rw [← createBatches_flatten (show 1 ≤ 50 by decide) docs]
    rw [List.length_flatten]
  simp only [storeDocuments, storeBatchesGo_all_ok insert hok, Nat.zero_add,
    hsum]
  simp [hlt]

/-- C9 witness: two documents stored, store reports only one: success with the
warning flag. -/
theorem store_count_discrepancy_advisory_witness :
    storeDocuments [⟨"a", []⟩, ⟨"b", []⟩] (fun _ => .ok ()) (some 1)
      = .ok ⟨2, true⟩ :=
  store_count_discrepancy_advisory [⟨"a", []⟩, ⟨"b", []⟩] (fun _ => .ok ()) 1
    (fun _ => rfl) (by decide)

end TsEmbeddings
